import Mathlib

/-!
Verification of the Propolis CI trigger-poll-report action.

The embedding models the three source variants:
* the richest variant (`src/src/index.ts`): repository context, non-blocking
  mode, 20-minute timeout, `AGENT_ERROR` terminal but ignored for failure;
* the incremental-logging variant (`src/unnamed/part_002`): terminal set
  `COMPLETED`/`FAILED`, failure lines keyed by `runId`;
* the basic variant (`src/unnamed/part_001`): statuses only.

Statuses are bare strings, as in the source (`status: string`); the poll
loop is modelled as a fuel-indexed recursion over an external elapsed-time
stream `times : Nat → Nat` (milliseconds since the loop started, sampled at
each iteration's timeout check) and a snapshot stream
`snaps : Nat → Snapshot` (the poll response of each cycle).  The loop
returns the list of externally visible events (poll requests and sleeps)
together with the final result, or `none` when the fuel runs out.
-/

namespace PropolisCI

/-- One test run inside a batch, as in `PollTestBatchResponse.testRuns`. -/
structure TestRun where
  friendlyName : String
  runId : String
  status : String
  url : String
deriving DecidableEq, Repr

/-- A poll snapshot: the full ordered list of test runs of one poll response. -/
abbrev Snapshot := List TestRun

/-- `statusIcon` from `src/src/index.ts` lines 23-39. -/
def statusIcon (status : String) : String :=
  if status = "QUEUED" then "⏳"
  else if status = "RUNNING" then "🏃"
  else if status = "NEEDS_MANUAL_REVIEW" then "🏃"
  else if status = "COMPLETED" then "✅"
  else if status = "FAILED" then "❌"
  else if status = "AGENT_ERROR" then "🤖️"
  else ""

/-- Display status: `NEEDS_MANUAL_REVIEW` is shown as `RUNNING`
(`src/src/index.ts` lines 155 and 172). -/
def displayStatus (s : String) : String :=
  if s = "NEEDS_MANUAL_REVIEW" then "RUNNING" else s

/-- The terminal statuses of the richest variant
(`src/src/index.ts` lines 162-164). -/
def terminalStatuses : List String := ["COMPLETED", "FAILED", "AGENT_ERROR"]

/-- `allDone` of the richest variant: every status is terminal
(`statuses.every(s => [...].includes(s))`, `src/src/index.ts` lines 162-164). -/
def allDone (runs : Snapshot) : Bool :=
  (runs.map (fun r => r.status)).all (fun s => terminalStatuses.contains s)

/-- The terminal statuses of the basic variants
(`src/unnamed/part_001` lines 39-41, `src/unnamed/part_002` lines 78-80). -/
def terminalStatusesBasic : List String := ["COMPLETED", "FAILED"]

/-- `allDone` of the basic variants (statuses only). -/
def allDoneBasic (statuses : List String) : Bool :=
  statuses.all (fun s => terminalStatusesBasic.contains s)

/-- `anyFailed` of the basic variant (`src/unnamed/part_001` line 47). -/
def anyFailed (statuses : List String) : Bool :=
  statuses.contains "FAILED"

/-- `failedTests` (`src/src/index.ts` line 194). -/
def failedTests (runs : Snapshot) : Snapshot :=
  runs.filter (fun t => t.status = "FAILED")

/-- `passedTests` (`src/src/index.ts` line 195). -/
def passedTests (runs : Snapshot) : Snapshot :=
  runs.filter (fun t => t.status = "COMPLETED")

/-- `agentErrorTests` (`src/src/index.ts` line 196). -/
def agentErrorTests (runs : Snapshot) : Snapshot :=
  runs.filter (fun t => t.status = "AGENT_ERROR")

/-- The failure report of the richest variant: a header plus one line per
failed run naming the run by its `friendlyName` and linking its detail URL
(`src/src/index.ts` lines 199-202). -/
def errorMessage (runs : Snapshot) : String :=
  (failedTests runs).foldl
    (fun acc t => acc ++ "- Test " ++ t.friendlyName ++ ": " ++ t.url ++ "\n")
    "❌ The following test suites failed:\n"

/-- The failure report of the incremental-logging variant: one line per
failed run naming the run by its `runId` (`src/unnamed/part_002` lines 111-114). -/
def errorMessageMid (runs : Snapshot) : String :=
  (failedTests runs).foldl
    (fun acc t => acc ++ "- Test " ++ t.runId ++ ": " ++ t.url ++ "\n")
    "❌ The following test suites failed:\n"

/-- The success line of the richest variant, noting ignored agent errors when
any run ended in `AGENT_ERROR` (`src/src/index.ts` lines 207-209). -/
def successMessage (runs : Snapshot) : String :=
  if (agentErrorTests runs).length > 0 then
    "✅ All test suites passed. (" ++ toString (passedTests runs).length ++
      " tests completed successfully, " ++ toString (agentErrorTests runs).length ++
      " agent errors ignored)"
  else
    "✅ All test suites passed. (" ++ toString (passedTests runs).length ++
      " tests completed successfully)"

/-- Final classification outcome of an invocation: `core.setFailed` with a
message, or a success log line. -/
inductive Outcome where
  | failed (msg : String)
  | success (msg : String)
deriving DecidableEq, Repr

/-- Whether an outcome marks the invocation failed. -/
def Outcome.isFailed : Outcome → Bool
  | .failed _ => true
  | .success _ => false

/-- Terminal classification of the richest variant
(`src/src/index.ts` lines 194-212): failed when `failedTests` is non-empty,
otherwise success with `successMessage`. -/
def classify (runs : Snapshot) : Outcome :=
  if (failedTests runs).length > 0 then .failed (errorMessage runs)
  else .success (successMessage runs)

/-- One row of the job-summary results table
(`src/src/index.ts` lines 171-179). -/
def summaryRow (t : TestRun) : List String :=
  [statusIcon t.status, t.friendlyName, displayStatus t.status,
    "<a href=\"" ++ t.url ++ "\">Logs</a>"]

/-- The job-summary results table, one row per run
(`src/src/index.ts` lines 171-179). -/
def summaryTable (runs : Snapshot) : List (List String) :=
  runs.map summaryRow

/-- Externally visible events of the poll loop: an outbound poll request, or
a fixed-duration sleep. -/
inductive Event where
  | poll
  | sleep (ms : Nat)
deriving DecidableEq, Repr

/-- Result of the poll loop: timeout (`src/src/index.ts` lines 121-125,
no table, marked failed) or done with the emitted results table and the
terminal classification. -/
inductive LoopResult where
  | timedOut
  | done (table : List (List String)) (outcome : Outcome)
deriving DecidableEq, Repr

/-- The 20-minute polling ceiling in milliseconds
(`src/src/index.ts` line 116). -/
def timeoutMs : Nat := 20 * 60 * 1000

/-- The fixed inter-poll pause in milliseconds (`src/src/index.ts` line 166). -/
def pollIntervalMs : Nat := 10000

/-- The poll loop of the richest variant (`src/src/index.ts` lines 119-213),
fuel-indexed.  Each iteration: check the elapsed time against the ceiling
(return `timedOut` when exceeded, before polling); otherwise issue a poll
(event `.poll`) obtaining the next snapshot; if every status is terminal,
emit the summary table and classify; otherwise sleep 10 s and re-enter with
the streams shifted by one.  Returns the event trace and the result
(`none` when the fuel is exhausted). -/
def loopRun : Nat → (Nat → Nat) → (Nat → Snapshot) → List Event × Option LoopResult
  | 0, _, _ => ([], none)
  | fuel + 1, times, snaps =>
    if timeoutMs < times 0 then ([], some .timedOut)
    else
      let runs := snaps 0
      if allDone runs then
        ([.poll], some (.done (summaryTable runs) (classify runs)))
      else
        let rest := loopRun fuel (fun k => times (k + 1)) (fun k => snaps (k + 1))
        (.poll :: .sleep pollIntervalMs :: rest.1, rest.2)

/-- Whether a loop result marks the invocation failed: timeout always does
(`core.setFailed`, line 123), a finished batch does iff its classification
is failed (line 203). -/
def loopMarksFailed : Option LoopResult → Bool
  | some .timedOut => true
  | some (.done _ o) => o.isFailed
  | none => false

/-- The results table a loop result emitted, if any: only the `done` state
writes the summary table; the timeout path produces none. -/
def producedTable : Option LoopResult → Option (List (List String))
  | some (.done t _) => some t
  | _ => none

/-- True when no poll event is immediately followed by another poll event,
given whether the previous event was a poll. -/
def noDoublePollAux : Bool → List Event → Bool
  | _, [] => true
  | lastPoll, .poll :: rest => !lastPoll && noDoublePollAux true rest
  | _, .sleep _ :: rest => noDoublePollAux false rest

/-- True when the trace never contains two consecutive poll requests. -/
def noDoublePoll (trace : List Event) : Bool :=
  noDoublePollAux false trace

/-- The JSON body of a successful trigger response, keeping only the field
the code reads: `batchRunId` (`none` when the field is absent). -/
structure TriggerResponse where
  batchRunId : Option String
deriving DecidableEq, Repr

/-- Extraction of the batch identifier from the trigger response
(`src/src/index.ts` lines 98-99): `if (!batchRunId) throw new
Error('Missing batchRunId in trigger response')`.  JavaScript falsiness
makes both an absent field and the empty string throw. -/
def extractBatchRunId (resp : TriggerResponse) : Except String String :=
  match resp.batchRunId with
  | none => .error "Missing batchRunId in trigger response"
  | some s =>
    if s = "" then .error "Missing batchRunId in trigger response" else .ok s

/-- API-key resolution (`src/src/index.ts` line 69):
`core.getInput('apiKey') || process.env.PROPOLIS_API_KEY`.  `getInput`
yields `""` when the input is absent, so the environment value is used
exactly when the input is empty; when both are missing the key is `none`
(JavaScript `undefined`) and the code proceeds regardless. -/
def resolveApiKey (input : String) (envKey : Option String) : Option String :=
  if input = "" then envKey else some input

/-- Result of one whole invocation of `main`. -/
inductive InvocationResult where
  | configError (msg : String)
  | triggerError (msg : String)
  | nonBlockingDone
  | loopResult (r : Option LoopResult)
deriving DecidableEq, Repr

/-- Whether an invocation result is a ConfigurationError. -/
def isConfigError : InvocationResult → Bool
  | .configError _ => true
  | _ => false

/-- Whether an invocation ends with a success status: non-blocking mode
always does after a successful trigger; otherwise only a finished batch
whose classification is success. -/
def isSuccessResult : InvocationResult → Bool
  | .nonBlockingDone => true
  | .loopResult (some (.done _ (.success _))) => true
  | _ => false

/-- `main` of the richest variant (`src/src/index.ts` lines 68-214), with
the trigger transport modelled by the given response.  Resolves the API key,
issues the trigger request unconditionally (recorded as the list of trigger
calls together with the key each carried — the code performs no key
validation before the network call), extracts the batch id (aborting on a
missing one), returns immediately in non-blocking mode, and otherwise runs
the poll loop.  Produces the trigger-call list, the poll-loop event trace,
and the invocation result. -/
def mainRun (apiKeyInput : String) (envKey : Option String) (nonBlocking : Bool)
    (resp : TriggerResponse) (fuel : Nat) (times : Nat → Nat)
    (snaps : Nat → Snapshot) :
    List (Option String) × List Event × InvocationResult :=
  let apiKey := resolveApiKey apiKeyInput envKey
  let triggerCalls := [apiKey]
  match extractBatchRunId resp with
  | .error e => (triggerCalls, [], .triggerError e)
  | .ok _ =>
    if nonBlocking then (triggerCalls, [], .nonBlockingDone)
    else
      let r := loopRun fuel times snaps
      (triggerCalls, r.1, .loopResult r.2)

/-- `s` contains `pat` as a contiguous substring. -/
def strContains (s pat : String) : Prop :=
  pat.toList <:+: s.toList

instance (s pat : String) : Decidable (strContains s pat) :=
  inferInstanceAs (Decidable (pat.toList <:+: s.toList))

/-- The scenario-B snapshot: one completed run and one failed run with
`runId` `r2` and detail URL `http://x`. -/
def scenarioB : Snapshot :=
  [⟨"Home page", "r1", "COMPLETED", "http://a"⟩,
   ⟨"Checkout flow", "r2", "FAILED", "http://x"⟩]

/-! ## Helper lemmas -/

theorem isFailed_classify (runs : Snapshot) :
    (classify runs).isFailed = decide (0 < (failedTests runs).length) := by
  unfold classify
  split <;> simp_all [Outcome.isFailed]

theorem loopRun_first_event_poll (fuel : Nat) (times : Nat → Nat)
    (snaps : Nat → Snapshot) (htime : times 0 ≤ timeoutMs) :
    ∃ rest, (loopRun (fuel + 1) times snaps).1 = .poll :: rest := by
  have hnot : ¬ timeoutMs < times 0 := by omega
  by_cases h : allDone (snaps 0)
  · exact ⟨[], by simp [loopRun, hnot, h]⟩
  · exact ⟨.sleep pollIntervalMs ::
      (loopRun fuel (fun k => times (k + 1)) (fun k => snaps (k + 1))).1,
      by simp [loopRun, hnot, h]⟩

theorem noDoublePoll_loopRun (fuel : Nat) :
    ∀ (times : Nat → Nat) (snaps : Nat → Snapshot),
      noDoublePoll (loopRun fuel times snaps).1 = true := by
  induction fuel with
  | zero => intro times snaps; simp [loopRun, noDoublePoll, noDoublePollAux]
  | succ f ih =>
    intro times snaps
    by_cases ht : timeoutMs < times 0
    · simp [loopRun, ht, noDoublePoll, noDoublePollAux]
    · by_cases hd : allDone (snaps 0)
      · simp [loopRun, ht, hd, noDoublePoll, noDoublePollAux]
      · simpa [loopRun, ht, hd, noDoublePoll, noDoublePollAux] using ih _ _

/-! ## The claims -/

/-- Claim C1: for every fully terminal snapshot, the batch outcome is failed
iff at least one run's status is in the configured failure set — which the
code fixes to `{FAILED}` (`AGENT_ERROR` is terminal but ignored for failure
in the richest variant, and the basic variant's `anyFailed` also tests only
`FAILED`) — and the classification is invariant under permutation of the
runs. -/
theorem classify_failed_iff_some_FAILED (runs : Snapshot)
    (_hterm : allDone runs = true) :
    ((classify runs).isFailed = true ↔ ∃ r ∈ runs, r.status = "FAILED") ∧
    (anyFailed (runs.map (fun r => r.status)) = true ↔
      ∃ r ∈ runs, r.status = "FAILED") ∧
    (∀ runs2 : Snapshot, runs.Perm runs2 →
      (classify runs).isFailed = (classify runs2).isFailed) := by
  refine ⟨?_, ?_, ?_⟩
  · rw [isFailed_classify, decide_eq_true_eq, List.length_pos_iff_exists_mem]
    constructor
    · rintro ⟨r, hr⟩
      rw [failedTests, List.mem_filter] at hr
      exact ⟨r, hr.1, by simpa using hr.2⟩
    · rintro ⟨r, hr, hs⟩
      exact ⟨r, by rw [failedTests, List.mem_filter]; exact ⟨hr, by simpa using hs⟩⟩
  · simp [anyFailed, List.mem_map]
  · intro runs2 hperm
    rw [isFailed_classify, isFailed_classify]
    have hlen : (failedTests runs).length = (failedTests runs2).length := by
      rw [failedTests, failedTests]
      exact (hperm.filter _).length_eq
    rw [hlen]

/-- Witness for C1 at a concrete terminal snapshot with one failed run. -/
theorem classify_failed_iff_some_FAILED_witness :
    allDone [⟨"Login", "r1", "FAILED", "http://x"⟩] = true ∧
    (classify [⟨"Login", "r1", "FAILED", "http://x"⟩]).isFailed = true :=
  ⟨by decide,
    (classify_failed_iff_some_FAILED [⟨"Login", "r1", "FAILED", "http://x"⟩]
      (by decide)).1.mpr ⟨⟨"Login", "r1", "FAILED", "http://x"⟩, by decide, rfl⟩⟩

/-- Claim C2: a snapshot in which every run's status is terminal makes the
poll loop stop after processing it: the remaining event trace is exactly the
single poll that fetched it (no further poll request), and the loop returns
the classified result. -/
theorem loopRun_terminal_stops (times : Nat → Nat) (snaps : Nat → Snapshot)
    (fuel : Nat) (htime : times 0 ≤ timeoutMs) (hterm : allDone (snaps 0) = true) :
    loopRun (fuel + 1) times snaps =
      ([.poll], some (.done (summaryTable (snaps 0)) (classify (snaps 0)))) := by
  have hnot : ¬ timeoutMs < times 0 := by omega
  simp [loopRun, hnot, hterm]

/-- Witness for C2 at the empty terminal snapshot. -/
theorem loopRun_terminal_stops_witness :
    ((fun _ : Nat => 0) 0 ≤ timeoutMs) ∧
    allDone ((fun _ : Nat => ([] : Snapshot)) 0) = true ∧
    loopRun 1 (fun _ => 0) (fun _ => []) =
      ([.poll], some (.done (summaryTable [])
        (classify ([] : Snapshot)))) :=
  ⟨by decide, by decide,
    loopRun_terminal_stops (fun _ => 0) (fun _ => []) 0 (by decide) (by decide)⟩

/-- Claim C3: when the elapsed time exceeds the 20-minute ceiling at
iteration `n` and no earlier snapshot was fully terminal, the loop ends in
`timedOut` — regardless of the snapshots' content from `n` on, which are
never polled — the invocation is marked failed, and no results table is
produced. -/
theorem loopRun_times_out (n : Nat) :
    ∀ (fuel : Nat) (times : Nat → Nat) (snaps : Nat → Snapshot),
      n < fuel →
      (∀ m, m < n → times m ≤ timeoutMs ∧ allDone (snaps m) = false) →
      timeoutMs < times n →
      (loopRun fuel times snaps).2 = some .timedOut ∧
      loopMarksFailed (loopRun fuel times snaps).2 = true ∧
      producedTable (loopRun fuel times snaps).2 = none := by
  induction n with
  | zero =>
    intro fuel times snaps hfuel _ htime
    obtain ⟨f, rfl⟩ : ∃ f, fuel = f + 1 := ⟨fuel - 1, by omega⟩
    simp [loopRun, htime, loopMarksFailed, producedTable]
  | succ n ih =>
    intro fuel times snaps hfuel hpre htime
    obtain ⟨f, rfl⟩ : ∃ f, fuel = f + 1 := ⟨fuel - 1, by omega⟩
    have h0 := hpre 0 (Nat.succ_pos n)
    have hnot : ¬ timeoutMs < times 0 := by
      have := h0.1
      omega
    have hrec := ih f (fun k => times (k + 1)) (fun k => snaps (k + 1))
      (by omega) (fun m hm => hpre (m + 1) (by omega)) htime
    have hres : (loopRun (f + 1) times snaps).2 =
        (loopRun f (fun k => times (k + 1)) (fun k => snaps (k + 1))).2 := by
      simp [loopRun, hnot, h0.2]
    exact ⟨by rw [hres]; exact hrec.1, by rw [hres]; exact hrec.2.1,
      by rw [hres]; exact hrec.2.2⟩

/-- Witness for C3: with the clock already past the ceiling at the first
iteration, the loop times out at once. -/
theorem loopRun_times_out_witness :
    (0 < 1) ∧ timeoutMs < (fun _ : Nat => timeoutMs + 1) 0 ∧
    ((loopRun 1 (fun _ => timeoutMs + 1) (fun _ => [])).2 = some .timedOut ∧
     loopMarksFailed (loopRun 1 (fun _ => timeoutMs + 1) (fun _ => [])).2 = true ∧
     producedTable (loopRun 1 (fun _ => timeoutMs + 1) (fun _ => [])).2 = none) :=
  ⟨by decide, by decide,
    loopRun_times_out 0 1 (fun _ => timeoutMs + 1) (fun _ => [])
      (by decide) (fun m hm => absurd hm (Nat.not_lt_zero m)) (by decide)⟩

/-- Claim C4 counterexample: with the `apiKey` input empty and no
environment fallback, the invocation still issues the trigger network call —
carrying no key — and surfaces no ConfigurationError: the code performs no
key validation (`src/src/index.ts` line 69 falls through to the `axios.post`
at line 84). -/
theorem missing_key_no_configError_counterexample :
    (mainRun "" none false ⟨some "b1"⟩ 1 (fun _ => 0) (fun _ => [])).1 = [none] ∧
    isConfigError
      (mainRun "" none false ⟨some "b1"⟩ 1 (fun _ => 0) (fun _ => [])).2.2 = false := by
  decide

/-- Claim C4 (amended): a missing API key (absent from both the explicit
configuration and the environment fallback) is not rejected: no
ConfigurationError is surfaced and the trigger network call is still issued,
with the key resolving to nothing. -/
theorem missing_key_proceeds_to_trigger (nonBlocking : Bool)
    (resp : TriggerResponse) (fuel : Nat) (times : Nat → Nat)
    (snaps : Nat → Snapshot) :
    resolveApiKey "" none = none ∧
    (mainRun "" none nonBlocking resp fuel times snaps).1 = [none] ∧
    isConfigError (mainRun "" none nonBlocking resp fuel times snaps).2.2 = false := by
  refine ⟨rfl, ?_, ?_⟩ <;>
  · unfold mainRun
    cases h : extractBatchRunId resp <;>
      cases nonBlocking <;> simp [resolveApiKey, isConfigError]

set_option maxRecDepth 20000 in
/-- Claim C5 counterexample: the richest variant's failure report names a
failing run by `friendlyName`, not `runId` (`src/src/index.ts` line 201), so
for the scenario-B snapshot (failed run with `runId` `r2`, `friendlyName`
"Checkout flow") the report does not contain the identifier `r2`. -/
theorem scenarioB_report_lacks_runId_counterexample :
    (classify scenarioB).isFailed = true ∧
    (failedTests scenarioB).length = 1 ∧
    ¬ strContains (errorMessage scenarioB) "r2" := by
  decide

set_option maxRecDepth 20000 in
/-- Claim C5 (amended): for the scenario-B snapshot the outcome is failed
and the failure report has exactly one failing-run line containing the run's
URL; the line names the run by `runId` (so contains `r2`) in the
incremental-logging variant, while the richest variant names it by
`friendlyName`. -/
theorem scenarioB_failure_report :
    (classify scenarioB).isFailed = true ∧
    (failedTests scenarioB).length = 1 ∧
    strContains (errorMessageMid scenarioB) "r2" ∧
    strContains (errorMessageMid scenarioB) "http://x" ∧
    strContains (errorMessage scenarioB) "Checkout flow" ∧
    strContains (errorMessage scenarioB) "http://x" := by
  decide

/-- Claim C6: in non-blocking mode, once the trigger call succeeds, the event
trace is empty (no poll request is ever issued, the loop and reporting are
skipped) and the invocation ends with a success status regardless of the
snapshots. -/
theorem nonBlocking_skips_polling (apiKeyInput : String) (envKey : Option String)
    (resp : TriggerResponse) (fuel : Nat) (times : Nat → Nat)
    (snaps : Nat → Snapshot) (id : String)
    (hok : extractBatchRunId resp = .ok id) :
    mainRun apiKeyInput envKey true resp fuel times snaps =
      ([resolveApiKey apiKeyInput envKey], [], .nonBlockingDone) ∧
    isSuccessResult (mainRun apiKeyInput envKey true resp fuel times snaps).2.2 = true := by
  constructor <;> simp [mainRun, hok, isSuccessResult]

/-- Witness for C6 at a concrete successful trigger response. -/
theorem nonBlocking_skips_polling_witness :
    extractBatchRunId ⟨some "b1"⟩ = .ok "b1" ∧
    (mainRun "k" none true ⟨some "b1"⟩ 3 (fun _ => 0) (fun _ => []) =
      ([resolveApiKey "k" none], [], .nonBlockingDone) ∧
     isSuccessResult
       (mainRun "k" none true ⟨some "b1"⟩ 3 (fun _ => 0) (fun _ => [])).2.2 = true) :=
  ⟨rfl, nonBlocking_skips_polling "k" none ⟨some "b1"⟩ 3 (fun _ => 0) (fun _ => [])
    "b1" rfl⟩

/-- Claim C7: a non-empty snapshot in which every run is `AGENT_ERROR`
classifies as success (agent errors are not in the failure set of the
richest variant), and the success message notes the number of ignored agent
errors — all of the runs — alongside zero completed runs. -/
theorem all_agent_error_success (runs : Snapshot)
    (hne : 0 < runs.length)
    (hall : runs.all (fun r => r.status = "AGENT_ERROR") = true) :
    (classify runs).isFailed = false ∧
    (passedTests runs).length = 0 ∧
    (agentErrorTests runs).length = runs.length ∧
    classify runs = .success
      ("✅ All test suites passed. (" ++ toString (passedTests runs).length ++
        " tests completed successfully, " ++ toString (agentErrorTests runs).length ++
        " agent errors ignored)") := by
  rw [List.all_eq_true] at hall
  have hfail : failedTests runs = [] := by
    rw [failedTests, List.filter_eq_nil_iff]
    intro a ha
    have := hall a ha
    simp at this ⊢
    rw [this]
    decide
  have hpass : passedTests runs = [] := by
    rw [passedTests, List.filter_eq_nil_iff]
    intro a ha
    have := hall a ha
    simp at this ⊢
    rw [this]
    decide
  have hagent : agentErrorTests runs = runs := by
    rw [agentErrorTests, List.filter_eq_self]
    intro a ha
    simpa using hall a ha
  have hpos : 0 < (agentErrorTests runs).length := by rw [hagent]; exact hne
  refine ⟨?_, by rw [hpass]; rfl, by rw [hagent], ?_⟩
  · rw [isFailed_classify, hfail]
    decide
  · rw [classify, hfail]
    simp [successMessage, hpos]

/-- Witness for C7 at a one-run `AGENT_ERROR` snapshot. -/
theorem all_agent_error_success_witness :
    (0 < ([⟨"Suite", "r1", "AGENT_ERROR", "u"⟩] : Snapshot).length) ∧
    (([⟨"Suite", "r1", "AGENT_ERROR", "u"⟩] : Snapshot).all
      (fun r => r.status = "AGENT_ERROR") = true) ∧
    (classify [⟨"Suite", "r1", "AGENT_ERROR", "u"⟩]).isFailed = false :=
  ⟨by decide, by decide,
    (all_agent_error_success [⟨"Suite", "r1", "AGENT_ERROR", "u"⟩]
      (by decide) (by decide)).1⟩

/-- Claim C9 counterexample: a non-terminal snapshot observed while the
elapsed time is below the ceiling, after which the 10-second wait crosses
the ceiling: the loop waits but then times out instead of issuing another
poll request — the whole trace holds a single poll. -/
theorem wait_can_cross_ceiling_counterexample :
    allDone ((fun _ : Nat => [⟨"Suite", "r1", "QUEUED", "u"⟩]) 0) = false ∧
    ((fun k : Nat => if k = 0 then 0 else timeoutMs + 1) 0 ≤ timeoutMs) ∧
    loopRun 5 (fun k => if k = 0 then 0 else timeoutMs + 1)
      (fun _ => [⟨"Suite", "r1", "QUEUED", "u"⟩]) =
      ([.poll, .sleep pollIntervalMs], some .timedOut) := by
  decide

/-- Claim C9 (amended): after a snapshot with a non-terminal status observed
below the ceiling, the loop always waits the fixed 10-second interval before
anything else (the trace continues `poll, sleep 10000`), it re-polls after
the wait provided the elapsed time is still within the ceiling, and it never
issues two poll requests without a sleep between them. -/
theorem loopRun_waits_before_repolling (times : Nat → Nat)
    (snaps : Nat → Snapshot) (fuel : Nat)
    (hnt : allDone (snaps 0) = false) (htime : times 0 ≤ timeoutMs) :
    (loopRun (fuel + 1) times snaps).1.take 2 = [.poll, .sleep pollIntervalMs] ∧
    (times 1 ≤ timeoutMs →
      (loopRun (fuel + 2) times snaps).1.take 3 =
        [.poll, .sleep pollIntervalMs, .poll]) ∧
    noDoublePoll (loopRun (fuel + 1) times snaps).1 = true := by
  have hnot : ¬ timeoutMs < times 0 := by omega
  refine ⟨by simp [loopRun, hnot, hnt], ?_, noDoublePoll_loopRun _ _ _⟩
  intro h1
  have hnot1 : ¬ timeoutMs < times 1 := by omega
  rw [show fuel + 2 = (fuel + 1) + 1 from rfl]
  by_cases h2 : allDone (snaps 1) <;>
    simp [loopRun, hnot, hnt, hnot1, h2]

/-- Witness for C9 (amended) at a concrete non-terminal snapshot with the
clock at zero. -/
theorem loopRun_waits_before_repolling_witness :
    allDone ((fun _ : Nat => [⟨"Suite", "r1", "QUEUED", "u"⟩]) 0) = false ∧
    ((fun _ : Nat => 0) 0 ≤ timeoutMs) ∧
    ((loopRun 2 (fun _ => 0) (fun _ => [⟨"Suite", "r1", "QUEUED", "u"⟩])).1.take 2 =
      [.poll, .sleep pollIntervalMs] ∧
     ((fun _ : Nat => 0) 1 ≤ timeoutMs →
      (loopRun 3 (fun _ => 0) (fun _ => [⟨"Suite", "r1", "QUEUED", "u"⟩])).1.take 3 =
        [.poll, .sleep pollIntervalMs, .poll]) ∧
     noDoublePoll
       (loopRun 2 (fun _ => 0) (fun _ => [⟨"Suite", "r1", "QUEUED", "u"⟩])).1 = true) :=
  ⟨by decide, by decide,
    loopRun_waits_before_repolling (fun _ => 0)
      (fun _ => [⟨"Suite", "r1", "QUEUED", "u"⟩]) 1 (by decide) (by decide)⟩

/-- Claim C10: a poll response with an empty `testRuns` array is vacuously
fully terminal: the very first cycle stops the loop — the trace is the
single poll, with no sleep and no re-poll — and the invocation succeeds
reporting zero passed runs. -/
theorem loopRun_empty_snapshot_success (times : Nat → Nat)
    (snaps : Nat → Snapshot) (fuel : Nat)
    (hempty : snaps 0 = []) (htime : times 0 ≤ timeoutMs) :
    allDone (snaps 0) = true ∧
    loopRun (fuel + 1) times snaps =
      ([.poll], some (.done []
        (.success ("✅ All test suites passed. (" ++ toString (0 : Nat) ++
          " tests completed successfully)")))) := by
  have hd : allDone (snaps 0) = true := by rw [hempty]; decide
  have hnot : ¬ timeoutMs < times 0 := by omega
  refine ⟨hd, ?_⟩
  simp only [loopRun, if_neg hnot, hempty]
  rfl

/-- Witness for C10 at the constantly empty snapshot stream. -/
theorem loopRun_empty_snapshot_success_witness :
    ((fun _ : Nat => ([] : Snapshot)) 0 = []) ∧
    ((fun _ : Nat => 0) 0 ≤ timeoutMs) ∧
    (allDone ((fun _ : Nat => ([] : Snapshot)) 0) = true ∧
     loopRun 4 (fun _ => 0) (fun _ => []) =
      ([.poll], some (.done []
        (.success ("✅ All test suites passed. (" ++ toString (0 : Nat) ++
          " tests completed successfully)"))))) :=
  ⟨rfl, by decide,
    loopRun_empty_snapshot_success (fun _ => 0) (fun _ => []) 3 rfl (by decide)⟩

/-- Claim C8: the trigger client returns only non-empty batch identifiers,
and yields the missing-batch-id error whenever the response lacks one
(including JavaScript's falsy empty string). -/
theorem extractBatchRunId_spec (resp : TriggerResponse) :
    (∀ id, extractBatchRunId resp = .ok id → id ≠ "") ∧
    (resp.batchRunId = none →
      extractBatchRunId resp = .error "Missing batchRunId in trigger response") ∧
    (resp.batchRunId = some "" →
      extractBatchRunId resp = .error "Missing batchRunId in trigger response") ∧
    (∀ s, s ≠ "" → resp.batchRunId = some s → extractBatchRunId resp = .ok s) := by
  obtain ⟨b⟩ := resp
  cases b with
  | none => simp [extractBatchRunId]
  | some s =>
    by_cases h : s = ""
    · subst h
      simp [extractBatchRunId]
      exact fun s hs h => hs h.symm
    · refine ⟨?_, by simp, ?_, ?_⟩
      · intro id hid
        rw [extractBatchRunId] at hid
        simp only [h, if_false] at hid
        cases hid
        exact h
      · intro hs
        simp only [TriggerResponse.mk.injEq, Option.some.injEq] at hs
        exact absurd hs h
      · intro s2 _ hs2
        simp only [TriggerResponse.mk.injEq, Option.some.injEq] at hs2
        subst hs2
        rw [extractBatchRunId]
        simp [h]

/-- Witness for C8: a missing id errors, a present id is returned as-is and
is non-empty. -/
theorem extractBatchRunId_spec_witness :
    extractBatchRunId ⟨none⟩ = .error "Missing batchRunId in trigger response" ∧
    extractBatchRunId ⟨some "b1"⟩ = .ok "b1" ∧
    "b1" ≠ "" :=
  ⟨(extractBatchRunId_spec ⟨none⟩).2.1 rfl,
   (extractBatchRunId_spec ⟨some "b1"⟩).2.2.2 "b1" (by decide) rfl,
   by decide⟩

end PropolisCI
